import Mathlib

/-!
Shallow embedding of the groundcrew agent core: the message model
(gc_dataclasses.py), the dispatch engine (agent.py), the tool schema export
(utils.py) and the ollama adapter chat function (llm/ollama_api.py).

Python dict arguments are modelled as association lists with `List.lookup`
semantics; Python exceptions are modelled with `Except`; the unbounded
`while True` dispatch loop is modelled with explicit fuel, where running out
of fuel corresponds to a non-terminating run.  Each theorem below settles one
claim about the source.
-/

namespace GC

/-- A Python value, as far as the dispatch engine inspects values. -/
inductive PyVal where
  | none
  | int (n : Int)
  | str (s : String)
  | bool (b : Bool)
  deriving Repr, DecidableEq

/-- gc_dataclasses.ToolCall: a structured tool-call request from the LLM. -/
structure ToolCall where
  function_name : String
  function_args : List (String × PyVal)
  tool_call_id : Option String
  tool_type : Option String
  deriving Repr, DecidableEq

/-- The message model of gc_dataclasses.py: a tagged union over the four
frozen dataclasses SystemMessage, UserMessage, AssistantMessage and
ToolMessage.  `tool_calls` is `Option (List ToolCall)` because the Python
field is `List[ToolCall] | None`, and `None` and `[]` are distinct. -/
inductive Msg where
  | system (content : String)
  | user (content : String)
  | assistant (content : String) (tool_calls : Option (List ToolCall))
  | tool (content : String) (tool_call_id : Option String) (name : Option String)
  deriving Repr, DecidableEq

/-- The `.content` attribute common to all message dataclasses. -/
def Msg.getContent : Msg → String
  | .system c => c
  | .user c => c
  | .assistant c _ => c
  | .tool c _ _ => c

/-- A tool handler (`tool.obj` in agent.py): its accepted parameter names as
reported by `inspect.signature(tool.obj).parameters`, and its behaviour when
called with keyword arguments.  An `Except.error` models a raised exception
(including a TypeError for a missing required argument). -/
structure Handler where
  params : List String
  run : List (String × PyVal) → Except String String

/-- The record produced by utils.parse_tool_schema: the function-calling
schema shape sent to the LLM backend. -/
structure ParsedSchema where
  schema_type : String
  function_name : String
  function_description : String
  parameters_type : String
  parameters_properties : List (String × List (String × PyVal))
  parameters_required : List String
  additionalProperties : Bool
  strict : Bool
  deriving Repr, DecidableEq

/-- The pydantic `model_json_schema()` dict as consumed by
utils.parse_tool_schema: a title, a description and a properties mapping
from parameter name to a mapping of schema keys (possibly holding a
"default" key). -/
structure ToolJsonSchema where
  title : String
  description : String
  properties : List (String × List (String × PyVal))
  deriving Repr, DecidableEq

/-- utils.parse_tool_schema.  The Python function deletes every "default"
key from the property dicts in place (so the second component returns the
mutated input schema), marks every property required, and wraps everything
in the strict function-calling format. -/
def parse_tool_schema (ts : ToolJsonSchema) : ParsedSchema × ToolJsonSchema :=
  let props := ts.properties.map (fun pv => (pv.1, pv.2.filter (fun kv => kv.1 ≠ "default")))
  let required := props.map Prod.fst
  (⟨"function", ts.title, ts.description, "object", props, required, false, true⟩,
   ⟨ts.title, ts.description, props⟩)

/-- gc_dataclasses.Tool. -/
structure Tool where
  name : String
  code : String
  description : String
  params : List (String × List (String × PyVal))
  obj : Handler
  schema : ParsedSchema

/-- utils.save_tools_to_yaml: reads `tool.schema` for each registered tool in
registry order and returns the ordered list (the YAML file write is I/O and
out of scope).  The second component is the registry state after the call:
the Python body only reads attributes, so it is returned unchanged. -/
def save_tools_to_yaml (tools : List (String × Tool)) :
    List ParsedSchema × List (String × Tool) :=
  (tools.map (fun kv => kv.2.schema), tools)

/-- One step of the second loop of Agent.run_tool: for a signature parameter
name, skip `user_prompt`, and otherwise add an explicit `None` entry when the
parameter is not already present in the accumulated argument dict. -/
def fillStep (acc : List (String × PyVal)) (param_name : String) :
    List (String × PyVal) :=
  if param_name = "user_prompt" then acc
  else if (acc.lookup param_name).isSome then acc
  else acc ++ [(param_name, PyVal.none)]

/-- The argument reconciliation of Agent.run_tool: first filter the
LLM-provided args down to the handler-accepted parameter names, then fill
every missing accepted parameter other than `user_prompt` with `None`. -/
def effectiveArgs (expected : List String) (tool_args : List (String × PyVal)) :
    List (String × PyVal) :=
  expected.foldl fillStep (tool_args.filter (fun kv => expected.contains kv.1))

/-- Agent.run_tool.  Takes the tools dict and the assistant response; reads
only the first tool call.  Returns `Except.ok` for a normal string return
(including the fixed unknown-tool string) and `Except.error` for a raised
exception.  Note the function has no access to the raw user prompt. -/
def run_tool (tools : List (String × Tool)) (llm_response : Msg) :
    Except String String :=
  match llm_response with
  | Msg.assistant _ (some (tc :: _)) =>
    match tools.lookup tc.function_name with
    | Option.none => Except.ok "The LLM tried to call a function that does not exist."
    | some tool => tool.obj.run (effectiveArgs tool.obj.params tc.function_args)
  | _ => Except.error "list index out of range"

/-- The try/except around run_tool in Agent.dispatch: a raised exception is
converted to the fixed-format error string. -/
def dispatchToolResponse (tools : List (String × Tool)) (resp : Msg) : String :=
  match run_tool tools resp with
  | Except.ok s => s
  | Except.error e => "An error occurred while running the tool: " ++ e

/-- system_prompts.AGENT_PROMPT (the triple-quoted literal, including its
leading and trailing newline). -/
def AGENT_PROMPT : String :=
  "\nYou are an assistant that answers question about a codebase. All of the user\x27s questions should be about this particular codebase, and you will be given tools that you can use to help you answer questions about the codebase.\n"

/-- The fixed question marker header prepended to the raw prompt in
Agent.dispatch. -/
def questionHeader : String := "\n\n### Question ###\n"

/-- The initial dispatch working set: one synthesized UserMessage wrapping
the raw input text. -/
def dispatchWorkingSet0 (user_prompt : String) : List Msg :=
  [Msg.user (questionHeader ++ user_prompt)]

/-- The prompt context built on each loop iteration of Agent.dispatch. -/
def initialContext (messages : List Msg) (user_prompt : String) : List Msg :=
  [Msg.system AGENT_PROMPT] ++ messages ++ dispatchWorkingSet0 user_prompt

/-- How a dispatch run ends: `done` models reaching the `break`, `crashed`
models an exception escaping dispatch, `outOfFuel` models a run that has not
terminated within the given fuel. -/
inductive DispatchOutcome where
  | done
  | crashed (err : String)
  | outOfFuel
  deriving Repr, DecidableEq

/-- The observable result of Agent.dispatch: the final dispatch_messages
list, the trace of contexts passed to the LLM adapter (in call order), and
the outcome. -/
structure DispatchResult where
  dispatch_messages : List Msg
  contexts : List (List Msg)
  outcome : DispatchOutcome
  deriving Repr, DecidableEq

/-- The `while True` loop of Agent.dispatch, with fuel.  Each iteration
sends `[SystemMessage] + session messages + dispatch_messages` to the
adapter, appends the response, breaks on a non-assistant response or on
`tool_calls is None`, crashes with an IndexError on an empty tool_calls
list (the Python code subscripts `tool_calls[0]`), and otherwise runs the
first tool call and appends one ToolMessage. -/
def dispatchLoop (tools : List (String × Tool)) (llm : List Msg → Msg)
    (messages : List Msg) : Nat → List Msg → DispatchResult
  | 0, dms => ⟨dms, [], DispatchOutcome.outOfFuel⟩
  | fuel + 1, dms =>
    let ctx := [Msg.system AGENT_PROMPT] ++ messages ++ dms
    match llm ctx with
    | Msg.assistant c tcs =>
      match tcs with
      | Option.none =>
        ⟨dms ++ [Msg.assistant c Option.none], [ctx], DispatchOutcome.done⟩
      | some [] =>
        ⟨dms ++ [Msg.assistant c (some [])], [ctx],
         DispatchOutcome.crashed "list index out of range"⟩
      | some (tc :: restTc) =>
        let resp := Msg.assistant c (some (tc :: restTc))
        let dms3 := (dms ++ [resp]) ++
          [Msg.tool (dispatchToolResponse tools resp) tc.tool_call_id
            (some tc.function_name)]
        let r := dispatchLoop tools llm messages fuel dms3
        ⟨r.dispatch_messages, ctx :: r.contexts, r.outcome⟩
    | m => ⟨dms ++ [m], [ctx], DispatchOutcome.done⟩

/-- Agent.dispatch. -/
def dispatch (tools : List (String × Tool)) (llm : List Msg → Msg)
    (messages : List Msg) (user_prompt : String) (fuel : Nat) : DispatchResult :=
  dispatchLoop tools llm messages fuel (dispatchWorkingSet0 user_prompt)

/-- `self.messages[-1].content` as used by interact and
interact_functional. -/
def lastContent (ms : List Msg) : Option String :=
  ms.getLast?.map Msg.getContent

/-- Agent.interact: runs dispatch, extends the session with the dispatch
messages, prints the last content, and returns None (the Python method is
annotated `-> None`).  The pair holds the new session and the returned
value; `Except.error` propagates an exception escaping dispatch. -/
def interact (tools : List (String × Tool)) (llm : List Msg → Msg)
    (session : List Msg) (user_prompt : String) (fuel : Nat) :
    Except String (List Msg × Option String) :=
  let r := dispatch tools llm session user_prompt fuel
  match r.outcome with
  | DispatchOutcome.crashed e => Except.error e
  | DispatchOutcome.outOfFuel => Except.error "out of fuel"
  | DispatchOutcome.done =>
    Except.ok (session ++ r.dispatch_messages, Option.none)

/-- Agent.interact_functional: same as interact but returns the last
message content. -/
def interact_functional (tools : List (String × Tool)) (llm : List Msg → Msg)
    (session : List Msg) (user_prompt : String) (fuel : Nat) :
    Except String (List Msg × Option String) :=
  let r := dispatch tools llm session user_prompt fuel
  match r.outcome with
  | DispatchOutcome.crashed e => Except.error e
  | DispatchOutcome.outOfFuel => Except.error "out of fuel"
  | DispatchOutcome.done =>
    let msgs := session ++ r.dispatch_messages
    Except.ok (msgs, lastContent msgs)

/-- isinstance check against SystemMessage in ollama_api.start_chat. -/
def isSystemMessage : Msg → Bool
  | Msg.system _ => true
  | _ => false

/-- isinstance check against (UserMessage, ToolMessage). -/
def isUserOrToolMessage : Msg → Bool
  | Msg.user _ => true
  | Msg.tool _ _ _ => true
  | _ => false

/-- isinstance check against AssistantMessage. -/
def isAssistantMessage : Msg → Bool
  | Msg.assistant _ _ => true
  | _ => false

/-- The alternation scan of ollama_api.start_chat.chat_func over
`messages[start_idx:]`: even offsets must be user/tool messages and odd
offsets assistant messages.  Returns the ValueError message of the first
violation, or `none` when the scan passes. -/
def checkAlternation : List Msg → Bool → Option String
  | [], _ => Option.none
  | m :: rest, evenPos =>
    if evenPos then
      if isUserOrToolMessage m then checkAlternation rest false
      else some "Expected UserMessage or ToolMessage"
    else
      if isAssistantMessage m then checkAlternation rest true
      else some "Expected AssistantMessage"

/-- The parsed payload of a successful backend call, as consumed by
ollama_api.message_from_api_response (which always builds an
AssistantMessage from a content string and optional tool calls). -/
structure ApiResponse where
  content : String
  tool_calls : Option (List ToolCall)

/-- ollama_api.start_chat.chat_func.  The backend argument models
`client.chat` composed with response parsing: `Except.error` is a raised
`ollama.ResponseError` carrying its error string.  The outer `Except.error`
models a ValueError raised by chat_func itself. -/
def chat_func (backend : List Msg → Except String ApiResponse) :
    List Msg → Except String Msg
  | [] => Except.error "Messages list cannot be empty"
  | m0 :: rest =>
    let tail := if isSystemMessage m0 then rest else m0 :: rest
    match checkAlternation tail true with
    | some err => Except.error err
    | Option.none =>
      match backend (m0 :: rest) with
      | Except.ok r => Except.ok (Msg.assistant r.content r.tool_calls)
      | Except.error e =>
        Except.ok (Msg.user ("There was an API error. Please try again.. " ++ e))

/-- The strict-alternation precondition, phrased by offset as in claim C10:
after skipping an optional leading SystemMessage, even offsets hold user or
tool messages and odd offsets hold assistant messages. -/
def alternationAt (tail : List Msg) : Prop :=
  ∀ i (h : i < tail.length),
    (i % 2 = 0 → isUserOrToolMessage (tail.get ⟨i, h⟩) = true) ∧
    (i % 2 = 1 → isAssistantMessage (tail.get ⟨i, h⟩) = true)

/-- Whether a chat_func result models a raised ValueError. -/
def isError : Except String Msg → Bool
  | Except.error _ => true
  | Except.ok _ => false

theorem contains_true_of_mem {P : List String} {a : String} (h : a ∈ P) :
    P.contains a = true := by
  simp [List.contains, h]

theorem contains_false_of_not_mem {P : List String} {a : String} (h : a ∉ P) :
    P.contains a = false := by
  simp [List.contains, h]

theorem lookup_append {α β : Type} [BEq α] (k : α) (l1 l2 : List (α × β)) :
    (l1 ++ l2).lookup k = (l1.lookup k).or (l2.lookup k) := by
  induction l1 with
  | nil => simp
  | cons hd tl ih =>
    rcases hd with ⟨a, b⟩
    rw [List.cons_append, List.lookup_cons, List.lookup_cons]
    cases hk : k == a with
    | true => simp
    | false => simpa using ih

theorem fillStep_lookup_some {acc : List (String × PyVal)} {p k : String} {v : PyVal}
    (h : acc.lookup k = some v) : (fillStep acc p).lookup k = some v := by
  unfold fillStep
  split
  · exact h
  · split
    · exact h
    · rw [lookup_append, h]; rfl

theorem foldl_fillStep_lookup_some (P : List String) :
    ∀ (acc : List (String × PyVal)) (k : String) (v : PyVal),
    acc.lookup k = some v → (P.foldl fillStep acc).lookup k = some v := by
  induction P with
  | nil => intro acc k v h; simpa using h
  | cons p P ih =>
    intro acc k v h
    rw [List.foldl_cons]
    exact ih _ _ _ (fillStep_lookup_some h)

theorem fillStep_lookup_none_of_ne {acc : List (String × PyVal)} {p k : String}
    (hne : p ≠ k) (h : acc.lookup k = Option.none) :
    (fillStep acc p).lookup k = Option.none := by
  have hbeq : (k == p) = false := beq_eq_false_iff_ne.mpr (Ne.symm hne)
  unfold fillStep
  split
  · exact h
  · split
    · exact h
    · rw [lookup_append, h]
      simp [List.lookup_cons, hbeq]

theorem fillStep_user_prompt (acc : List (String × PyVal)) :
    fillStep acc "user_prompt" = acc := by
  unfold fillStep
  simp

theorem foldl_fillStep_not_mem (P : List String) :
    ∀ (acc : List (String × PyVal)) (k : String), k ∉ P →
    acc.lookup k = Option.none →
    (P.foldl fillStep acc).lookup k = Option.none := by
  induction P with
  | nil => intro acc k _ h; simpa using h
  | cons p P ih =>
    intro acc k hk h
    rw [List.foldl_cons]
    have hne : p ≠ k := by
      rintro rfl
      exact hk (List.mem_cons_self _ _)
    exact ih _ _ (fun hm => hk (List.mem_cons_of_mem _ hm))
      (fillStep_lookup_none_of_ne hne h)

theorem foldl_fillStep_user_prompt (P : List String) :
    ∀ (acc : List (String × PyVal)),
    acc.lookup "user_prompt" = Option.none →
    (P.foldl fillStep acc).lookup "user_prompt" = Option.none := by
  induction P with
  | nil => intro acc h; simpa using h
  | cons p P ih =>
    intro acc h
    rw [List.foldl_cons]
    by_cases hp : p = "user_prompt"
    · subst hp
      rw [fillStep_user_prompt]
      exact ih _ h
    · exact ih _ (fillStep_lookup_none_of_ne hp h)

theorem foldl_fillStep_fill (P : List String) :
    ∀ (acc : List (String × PyVal)) (k : String), k ∈ P → k ≠ "user_prompt" →
    acc.lookup k = Option.none →
    (P.foldl fillStep acc).lookup k = some PyVal.none := by
  induction P with
  | nil => intro acc k hk _ _; exact absurd hk (List.not_mem_nil k)
  | cons p P ih =>
    intro acc k hk hup h
    rw [List.foldl_cons]
    by_cases hpk : p = k
    · subst hpk
      have hstep : (fillStep acc p).lookup p = some PyVal.none := by
        unfold fillStep
        rw [if_neg hup, if_neg (by simp [h])]
        rw [lookup_append, h]
        simp [List.lookup_cons]
      exact foldl_fillStep_lookup_some P _ _ _ hstep
    · rcases List.mem_cons.mp hk with h1 | h1
      · exact absurd h1.symm hpk
      · exact ih _ _ h1 hup (fillStep_lookup_none_of_ne hpk h)

theorem lookup_filter_mem (P : List String) (A : List (String × PyVal)) (k : String)
    (hk : k ∈ P) :
    (A.filter (fun kv => P.contains kv.1)).lookup k = A.lookup k := by
  induction A with
  | nil => simp
  | cons hd tl ih =>
    rcases hd with ⟨a, v⟩
    by_cases ha : a ∈ P
    · rw [List.filter_cons_of_pos (by simpa using contains_true_of_mem ha)]
      rw [List.lookup_cons, List.lookup_cons]
      cases hka : k == a with
      | true => rfl
      | false => simpa using ih
    · have hka : (k == a) = false := by
        apply beq_eq_false_iff_ne.mpr
        rintro rfl
        exact ha hk
      rw [List.filter_cons_of_neg (by simpa using contains_false_of_not_mem ha)]
      rw [List.lookup_cons, hka]
      simpa using ih

theorem lookup_filter_not_mem (P : List String) (A : List (String × PyVal)) (k : String)
    (hk : k ∉ P) :
    (A.filter (fun kv => P.contains kv.1)).lookup k = Option.none := by
  induction A with
  | nil => simp
  | cons hd tl ih =>
    rcases hd with ⟨a, v⟩
    by_cases ha : a ∈ P
    · have hka : (k == a) = false := by
        apply beq_eq_false_iff_ne.mpr
        rintro rfl
        exact hk ha
      rw [List.filter_cons_of_pos (by simpa using contains_true_of_mem ha)]
      rw [List.lookup_cons, hka]
      exact ih
    · rw [List.filter_cons_of_neg (by simpa using contains_false_of_not_mem ha)]
      exact ih

/-- The working set after one tool-call iteration: the assistant response
followed by the single ToolMessage built from the first tool call. -/
def nextWorkingSet (tools : List (String × Tool)) (dms : List Msg) (c : String)
    (tc : ToolCall) (restTc : List ToolCall) : List Msg :=
  (dms ++ [Msg.assistant c (some (tc :: restTc))]) ++
    [Msg.tool (dispatchToolResponse tools (Msg.assistant c (some (tc :: restTc))))
      tc.tool_call_id (some tc.function_name)]

theorem dispatchLoop_succ_none (tools : List (String × Tool)) (llm : List Msg → Msg)
    (msgs : List Msg) (fuel : Nat) (dms : List Msg) (c : String)
    (h : llm ([Msg.system AGENT_PROMPT] ++ msgs ++ dms) = Msg.assistant c Option.none) :
    dispatchLoop tools llm msgs (fuel + 1) dms =
      ⟨dms ++ [Msg.assistant c Option.none],
       [[Msg.system AGENT_PROMPT] ++ msgs ++ dms], DispatchOutcome.done⟩ := by
  simp only [dispatchLoop, h]

theorem dispatchLoop_succ_empty (tools : List (String × Tool)) (llm : List Msg → Msg)
    (msgs : List Msg) (fuel : Nat) (dms : List Msg) (c : String)
    (h : llm ([Msg.system AGENT_PROMPT] ++ msgs ++ dms) = Msg.assistant c (some [])) :
    dispatchLoop tools llm msgs (fuel + 1) dms =
      ⟨dms ++ [Msg.assistant c (some [])],
       [[Msg.system AGENT_PROMPT] ++ msgs ++ dms],
       DispatchOutcome.crashed "list index out of range"⟩ := by
  simp only [dispatchLoop, h]

theorem dispatchLoop_succ_toolcall (tools : List (String × Tool)) (llm : List Msg → Msg)
    (msgs : List Msg) (fuel : Nat) (dms : List Msg) (c : String) (tc : ToolCall)
    (restTc : List ToolCall)
    (h : llm ([Msg.system AGENT_PROMPT] ++ msgs ++ dms) =
      Msg.assistant c (some (tc :: restTc))) :
    dispatchLoop tools llm msgs (fuel + 1) dms =
      ⟨(dispatchLoop tools llm msgs fuel (nextWorkingSet tools dms c tc restTc)).dispatch_messages,
       ([Msg.system AGENT_PROMPT] ++ msgs ++ dms) ::
         (dispatchLoop tools llm msgs fuel (nextWorkingSet tools dms c tc restTc)).contexts,
       (dispatchLoop tools llm msgs fuel (nextWorkingSet tools dms c tc restTc)).outcome⟩ := by
  simp only [dispatchLoop, h, nextWorkingSet]

theorem dispatchLoop_contexts_head (tools : List (String × Tool)) (llm : List Msg → Msg)
    (msgs : List Msg) (fuel : Nat) (dms : List Msg) :
    (dispatchLoop tools llm msgs (fuel + 1) dms).contexts.head? =
      some ([Msg.system AGENT_PROMPT] ++ msgs ++ dms) := by
  simp only [dispatchLoop]
  split
  · split <;> rfl
  · rfl

theorem dispatchLoop_contexts_len (tools : List (String × Tool)) (llm : List Msg → Msg)
    (msgs : List Msg) (fuel : Nat) (dms : List Msg) :
    1 ≤ (dispatchLoop tools llm msgs (fuel + 1) dms).contexts.length := by
  simp only [dispatchLoop]
  split
  · split <;> simp
  · simp

theorem dispatchLoop_dms_prefix (tools : List (String × Tool)) (llm : List Msg → Msg)
    (msgs : List Msg) :
    ∀ (fuel : Nat) (dms : List Msg),
    ∃ suf, (dispatchLoop tools llm msgs fuel dms).dispatch_messages = dms ++ suf := by
  intro fuel
  induction fuel with
  | zero =>
    intro dms
    exact ⟨[], by simp [dispatchLoop]⟩
  | succ n ih =>
    intro dms
    cases hr : llm ([Msg.system AGENT_PROMPT] ++ msgs ++ dms) with
    | assistant c tcs =>
      cases tcs with
      | none =>
        exact ⟨[Msg.assistant c Option.none],
          by rw [dispatchLoop_succ_none tools llm msgs n dms c hr]⟩
      | some l =>
        cases l with
        | nil =>
          exact ⟨[Msg.assistant c (some [])],
            by rw [dispatchLoop_succ_empty tools llm msgs n dms c hr]⟩
        | cons tc restTc =>
          rcases ih (nextWorkingSet tools dms c tc restTc) with ⟨s, hs⟩
          refine ⟨[Msg.assistant c (some (tc :: restTc)),
            Msg.tool (dispatchToolResponse tools (Msg.assistant c (some (tc :: restTc))))
              tc.tool_call_id (some tc.function_name)] ++ s, ?_⟩
          rw [dispatchLoop_succ_toolcall tools llm msgs n dms c tc restTc hr]
          simp only [nextWorkingSet] at hs ⊢
          simpa [List.append_assoc] using hs
    | system c => exact ⟨[Msg.system c], by simp only [dispatchLoop, hr]⟩
    | user c => exact ⟨[Msg.user c], by simp only [dispatchLoop, hr]⟩
    | tool c i nm => exact ⟨[Msg.tool c i nm], by simp only [dispatchLoop, hr]⟩

/-! Concrete stub handlers, tools and adapters used to instantiate the
theorems below on closed inputs. -/

/-- A schema value used by stub tools. -/
def blankSchema : ParsedSchema := ⟨"function", "stub", "", "object", [], [], false, true⟩

/-- A handler accepting one parameter that always raises. -/
def failingHandler : Handler := ⟨["a"], fun _ => Except.error "boom"⟩

/-- A registered tool whose handler always raises. -/
def failingTool : Tool := ⟨"fail_tool", "", "", [], failingHandler, blankSchema⟩

/-- A registry holding only the failing tool. -/
def failTools : List (String × Tool) := [("fail_tool", failingTool)]

/-- A handler that reports the user_prompt value it actually received. -/
def echoUserPromptHandler : Handler :=
  ⟨["user_prompt"], fun args =>
    Except.ok (match args.lookup "user_prompt" with
      | some (PyVal.str s) => s
      | _ => "user_prompt missing")⟩

/-- A registered tool wrapping the echo handler. -/
def echoTool : Tool := ⟨"echo", "", "", [], echoUserPromptHandler, blankSchema⟩

/-- A registry holding only the echo tool. -/
def echoTools : List (String × Tool) := [("echo", echoTool)]

/-- First of two tool calls requested in one assistant turn. -/
def tcFirst : ToolCall := ⟨"first_tool", [("a", PyVal.int 1)], some "id1", some "function"⟩

/-- Second of two tool calls requested in one assistant turn. -/
def tcSecond : ToolCall := ⟨"second_tool", [], some "id2", some "function"⟩

/-- A tool call naming the failing tool. -/
def tcFail : ToolCall := ⟨"fail_tool", [], some "id9", some "function"⟩

/-- A tool call naming a tool that is not registered. -/
def tcGhost : ToolCall := ⟨"does_not_exist", [("x", PyVal.int 3)], some "id7", some "function"⟩

/-- An adapter stub returning two tool calls in one assistant turn. -/
def llmTwoToolCalls : List Msg → Msg :=
  fun _ => Msg.assistant "calling" (some [tcFirst, tcSecond])

/-- An adapter stub that always calls the failing tool. -/
def llmCallsFailTool : List Msg → Msg :=
  fun _ => Msg.assistant "calling" (some [tcFail])

/-- An adapter stub that always calls an unregistered tool. -/
def llmCallsGhost : List Msg → Msg :=
  fun _ => Msg.assistant "calling" (some [tcGhost])

/-- An adapter stub that always answers directly with no tool calls. -/
def llmFinalAnswer : List Msg → Msg :=
  fun _ => Msg.assistant "the final answer" Option.none

/-- An adapter stub returning an assistant message whose tool_calls is an
empty (non-None) list. -/
def llmEmptyToolCalls : List Msg → Msg :=
  fun _ => Msg.assistant "hi" (some [])

/-- An adapter stub that calls the echo tool supplying its own value for
the user_prompt argument. -/
def llmSupplyingUserPrompt : List Msg → Msg :=
  fun _ => Msg.assistant "calling"
    (some [⟨"echo", [("user_prompt", PyVal.str "llm supplied text")], some "id4",
      some "function"⟩])

/-- A backend stub that always raises a ResponseError. -/
def backendBoom : List Msg → Except String ApiResponse :=
  fun _ => Except.error "boom"

/-- A backend stub that always succeeds with a plain reply. -/
def backendOkStub : List Msg → Except String ApiResponse :=
  fun _ => Except.ok ⟨"all good", Option.none⟩

/-- C4: for a known tool with handler-accepted parameter names P and
LLM-provided argument mapping A, the effective call arguments are A
restricted to P, extended with an explicit None for every key of P other
than user_prompt that is missing from A: hallucinated keys are dropped and
omitted parameters are filled absent. -/
theorem effectiveArgs_reconciliation (P : List String) (A : List (String × PyVal))
    (k : String) :
    (k ∉ P → (effectiveArgs P A).lookup k = Option.none) ∧
    (k ∈ P → ∀ v : PyVal, A.lookup k = some v →
      (effectiveArgs P A).lookup k = some v) ∧
    (k ∈ P → k ≠ "user_prompt" → A.lookup k = Option.none →
      (effectiveArgs P A).lookup k = some PyVal.none) := by
  refine ⟨?_, ?_, ?_⟩
  · intro hk
    unfold effectiveArgs
    exact foldl_fillStep_not_mem P _ k hk (lookup_filter_not_mem P A k hk)
  · intro hk v hv
    unfold effectiveArgs
    exact foldl_fillStep_lookup_some P _ k v ((lookup_filter_mem P A k hk).trans hv)
  · intro hk hup hv
    unfold effectiveArgs
    exact foldl_fillStep_fill P _ k hk hup ((lookup_filter_mem P A k hk).trans hv)

/-- Witness for C4, on the example of the spec: accepted params a, b and
LLM args a=1, c=99 give effective args a=1, b=None with c dropped. -/
theorem effectiveArgs_reconciliation_witness :
    (effectiveArgs ["a", "b"] [("a", PyVal.int 1), ("c", PyVal.int 99)]).lookup "c" =
      Option.none ∧
    (effectiveArgs ["a", "b"] [("a", PyVal.int 1), ("c", PyVal.int 99)]).lookup "a" =
      some (PyVal.int 1) ∧
    (effectiveArgs ["a", "b"] [("a", PyVal.int 1), ("c", PyVal.int 99)]).lookup "b" =
      some PyVal.none :=
  ⟨(effectiveArgs_reconciliation ["a", "b"] [("a", PyVal.int 1), ("c", PyVal.int 99)]
      "c").1 (by decide),
   (effectiveArgs_reconciliation ["a", "b"] [("a", PyVal.int 1), ("c", PyVal.int 99)]
      "a").2.1 (by decide) (PyVal.int 1) (by decide),
   (effectiveArgs_reconciliation ["a", "b"] [("a", PyVal.int 1), ("c", PyVal.int 99)]
      "b").2.2 (by decide) (by decide) (by decide)⟩

/-- C5 counterexample: the dispatch engine does not bind user_prompt to the
original raw input text.  Running dispatch with raw input "original
question" while the LLM supplies its own user_prompt value, the handler
receives the LLM value (the ToolMessage echoes "llm supplied text", not the
raw input); and when the LLM omits user_prompt, the reconciled arguments
contain no user_prompt entry at all. -/
theorem user_prompt_not_bound_cex :
    (dispatch echoTools llmSupplyingUserPrompt [] "original question" 2).dispatch_messages.take 3 =
      [Msg.user (questionHeader ++ "original question"),
       Msg.assistant "calling"
         (some [⟨"echo", [("user_prompt", PyVal.str "llm supplied text")], some "id4",
           some "function"⟩]),
       Msg.tool "llm supplied text" (some "id4") (some "echo")] ∧
    (effectiveArgs ["user_prompt", "a"] []).lookup "user_prompt" = Option.none := by
  exact ⟨rfl, rfl⟩

/-- C5 (amended): the reconciliation never fills user_prompt with None; its
effective value is exactly whatever the LLM supplied (absent when omitted),
and a known tool handler is invoked on exactly these reconciled arguments —
the raw input text is never bound to user_prompt. -/
theorem user_prompt_passthrough (P : List String) (A : List (String × PyVal))
    (tools : List (String × Tool)) (c : String) (tc : ToolCall)
    (restTc : List ToolCall) (tool : Tool) (hk : "user_prompt" ∈ P)
    (htool : tools.lookup tc.function_name = some tool) :
    (effectiveArgs P A).lookup "user_prompt" = A.lookup "user_prompt" ∧
    run_tool tools (Msg.assistant c (some (tc :: restTc))) =
      tool.obj.run (effectiveArgs tool.obj.params tc.function_args) := by
  constructor
  · unfold effectiveArgs
    cases hv : A.lookup "user_prompt" with
    | none =>
      rw [foldl_fillStep_user_prompt P _ ((lookup_filter_mem P A _ hk).trans hv)]
    | some v =>
      rw [foldl_fillStep_lookup_some P _ _ v ((lookup_filter_mem P A _ hk).trans hv)]
  · simp only [run_tool, htool]

/-- Witness for the amended C5: with the echo tool registered, the LLM
value passes through unchanged and an omitted user_prompt stays absent. -/
theorem user_prompt_passthrough_witness :
    (effectiveArgs ["user_prompt"] [("user_prompt", PyVal.str "llm supplied text")]).lookup
      "user_prompt" = [("user_prompt", PyVal.str "llm supplied text")].lookup "user_prompt" ∧
    run_tool echoTools (Msg.assistant "calling"
        (some [⟨"echo", [("user_prompt", PyVal.str "llm supplied text")], some "id4",
          some "function"⟩])) =
      echoTool.obj.run (effectiveArgs echoTool.obj.params
        [("user_prompt", PyVal.str "llm supplied text")]) :=
  user_prompt_passthrough ["user_prompt"]
    [("user_prompt", PyVal.str "llm supplied text")] echoTools "calling"
    ⟨"echo", [("user_prompt", PyVal.str "llm supplied text")], some "id4", some "function"⟩
    [] echoTool (by decide) rfl

/-- C7: the context passed to the adapter on the first iteration is the
singleton system message holding the agent instructions, then the session
history, then exactly one synthesized UserMessage whose content is the raw
input text prefixed by the fixed question marker header. -/
theorem first_context_shape (tools : List (String × Tool)) (llm : List Msg → Msg)
    (msgs : List Msg) (prompt : String) (fuel : Nat) :
    (dispatch tools llm msgs prompt (fuel + 1)).contexts.head? =
      some ([Msg.system AGENT_PROMPT] ++ msgs ++
        [Msg.user (questionHeader ++ prompt)]) := by
  unfold dispatch
  simpa [dispatchWorkingSet0] using
    dispatchLoop_contexts_head tools llm msgs fuel (dispatchWorkingSet0 prompt)

/-- C9: exporting the tool schemas twice yields identical ordered output and
leaves the registry (and hence the stored schemas) unchanged. -/
theorem save_tools_export_idempotent (tools : List (String × Tool)) :
    (save_tools_to_yaml (save_tools_to_yaml tools).2).1 = (save_tools_to_yaml tools).1 ∧
    (save_tools_to_yaml tools).2 = tools ∧
    (save_tools_to_yaml (save_tools_to_yaml tools).2).2 = tools :=
  ⟨rfl, rfl, rfl⟩

/-- C1: when the assistant response carries a non-empty tool_calls sequence,
the next adapter call sees the working set grown by exactly the assistant
message and one ToolMessage built from the first tool call, and run_tool is
insensitive to the remaining tool calls (they are never executed). -/
theorem dispatch_executes_only_first_tool_call (tools : List (String × Tool))
    (llm : List Msg → Msg) (msgs : List Msg) (prompt : String) (fuel : Nat)
    (c : String) (tc : ToolCall) (restTc : List ToolCall)
    (h : llm (initialContext msgs prompt) = Msg.assistant c (some (tc :: restTc))) :
    (dispatch tools llm msgs prompt (fuel + 2)).contexts.head? =
      some (initialContext msgs prompt) ∧
    (dispatch tools llm msgs prompt (fuel + 2)).contexts.tail.head? =
      some (initialContext msgs prompt ++
        [Msg.assistant c (some (tc :: restTc)),
         Msg.tool (dispatchToolResponse tools (Msg.assistant c (some (tc :: restTc))))
           tc.tool_call_id (some tc.function_name)]) ∧
    run_tool tools (Msg.assistant c (some (tc :: restTc))) =
      run_tool tools (Msg.assistant c (some [tc])) := by
  have h' : llm ([Msg.system AGENT_PROMPT] ++ msgs ++ dispatchWorkingSet0 prompt) =
      Msg.assistant c (some (tc :: restTc)) := by
    simpa [initialContext] using h
  unfold dispatch
  rw [dispatchLoop_succ_toolcall tools llm msgs (fuel + 1) _ c tc restTc h']
  refine ⟨?_, ?_, rfl⟩
  · simp [initialContext]
  · have hh := dispatchLoop_contexts_head tools llm msgs fuel
      (nextWorkingSet tools (dispatchWorkingSet0 prompt) c tc restTc)
    simp only [List.tail_cons]
    rw [hh]
    simp [nextWorkingSet, initialContext, dispatchWorkingSet0, List.append_assoc]

/-- Witness for C1: a stub adapter requesting two tool calls in one turn. -/
theorem dispatch_executes_only_first_tool_call_witness :
    (dispatch [] llmTwoToolCalls [] "q" 2).contexts.head? =
      some (initialContext [] "q") ∧
    (dispatch [] llmTwoToolCalls [] "q" 2).contexts.tail.head? =
      some (initialContext [] "q" ++
        [Msg.assistant "calling" (some [tcFirst, tcSecond]),
         Msg.tool (dispatchToolResponse [] (Msg.assistant "calling" (some [tcFirst, tcSecond])))
           tcFirst.tool_call_id (some tcFirst.function_name)]) ∧
    run_tool [] (Msg.assistant "calling" (some [tcFirst, tcSecond])) =
      run_tool [] (Msg.assistant "calling" (some [tcFirst])) :=
  dispatch_executes_only_first_tool_call [] llmTwoToolCalls [] "q" 0 "calling"
    tcFirst [tcSecond] rfl

/-- C2: a handler that raises is caught: the working set gets a ToolMessage
whose content is the fixed error prefix followed by the exception message,
and the loop issues at least one more adapter call. -/
theorem dispatch_handler_exception_to_tool_message (tools : List (String × Tool))
    (llm : List Msg → Msg) (msgs : List Msg) (prompt : String) (fuel : Nat)
    (c : String) (tc : ToolCall) (restTc : List ToolCall) (tool : Tool) (e : String)
    (htool : tools.lookup tc.function_name = some tool)
    (hrun : tool.obj.run (effectiveArgs tool.obj.params tc.function_args) =
      Except.error e)
    (h : llm (initialContext msgs prompt) = Msg.assistant c (some (tc :: restTc))) :
    (dispatch tools llm msgs prompt (fuel + 2)).dispatch_messages.take 3 =
      [Msg.user (questionHeader ++ prompt),
       Msg.assistant c (some (tc :: restTc)),
       Msg.tool ("An error occurred while running the tool: " ++ e)
         tc.tool_call_id (some tc.function_name)] ∧
    2 ≤ (dispatch tools llm msgs prompt (fuel + 2)).contexts.length := by
  have h' : llm ([Msg.system AGENT_PROMPT] ++ msgs ++ dispatchWorkingSet0 prompt) =
      Msg.assistant c (some (tc :: restTc)) := by
    simpa [initialContext] using h
  unfold dispatch
  rw [dispatchLoop_succ_toolcall tools llm msgs (fuel + 1) _ c tc restTc h']
  constructor
  · rcases dispatchLoop_dms_prefix tools llm msgs (fuel + 1)
      (nextWorkingSet tools (dispatchWorkingSet0 prompt) c tc restTc) with ⟨s, hs⟩
    simp only [hs]
    rw [List.take_left' (by simp [nextWorkingSet, dispatchWorkingSet0])]
    simp [nextWorkingSet, dispatchWorkingSet0, dispatchToolResponse, run_tool,
      htool, hrun]
  · have := dispatchLoop_contexts_len tools llm msgs fuel
      (nextWorkingSet tools (dispatchWorkingSet0 prompt) c tc restTc)
    simp only [List.length_cons]
    omega

/-- Witness for C2: a registered tool whose handler raises "boom". -/
theorem dispatch_handler_exception_to_tool_message_witness :
    (dispatch failTools llmCallsFailTool [] "q" 2).dispatch_messages.take 3 =
      [Msg.user (questionHeader ++ "q"),
       Msg.assistant "calling" (some [tcFail]),
       Msg.tool ("An error occurred while running the tool: " ++ "boom")
         tcFail.tool_call_id (some tcFail.function_name)] ∧
    2 ≤ (dispatch failTools llmCallsFailTool [] "q" 2).contexts.length :=
  dispatch_handler_exception_to_tool_message failTools llmCallsFailTool [] "q" 0
    "calling" tcFail [] failingTool "boom" rfl rfl rfl

/-- C3: a tool-call request naming an unregistered tool does not raise: the
working set gets a ToolMessage with the fixed does-not-exist string and the
correlating tool_call_id and name, no handler is consulted (the result is
the same for every registry without that name), and the loop issues at
least one more adapter call. -/
theorem dispatch_unknown_tool_not_fatal (tools : List (String × Tool))
    (llm : List Msg → Msg) (msgs : List Msg) (prompt : String) (fuel : Nat)
    (c : String) (tc : ToolCall) (restTc : List ToolCall)
    (hmiss : tools.lookup tc.function_name = Option.none)
    (h : llm (initialContext msgs prompt) = Msg.assistant c (some (tc :: restTc))) :
    (dispatch tools llm msgs prompt (fuel + 2)).dispatch_messages.take 3 =
      [Msg.user (questionHeader ++ prompt),
       Msg.assistant c (some (tc :: restTc)),
       Msg.tool "The LLM tried to call a function that does not exist."
         tc.tool_call_id (some tc.function_name)] ∧
    2 ≤ (dispatch tools llm msgs prompt (fuel + 2)).contexts.length := by
  have h' : llm ([Msg.system AGENT_PROMPT] ++ msgs ++ dispatchWorkingSet0 prompt) =
      Msg.assistant c (some (tc :: restTc)) := by
    simpa [initialContext] using h
  unfold dispatch
  rw [dispatchLoop_succ_toolcall tools llm msgs (fuel + 1) _ c tc restTc h']
  constructor
  · rcases dispatchLoop_dms_prefix tools llm msgs (fuel + 1)
      (nextWorkingSet tools (dispatchWorkingSet0 prompt) c tc restTc) with ⟨s, hs⟩
    simp only [hs]
    rw [List.take_left' (by simp [nextWorkingSet, dispatchWorkingSet0])]
    simp [nextWorkingSet, dispatchWorkingSet0, dispatchToolResponse, run_tool, hmiss]
  · have := dispatchLoop_contexts_len tools llm msgs fuel
      (nextWorkingSet tools (dispatchWorkingSet0 prompt) c tc restTc)
    simp only [List.length_cons]
    omega

/-- Witness for C3: a registry holding only fail_tool receives a call for
does_not_exist. -/
theorem dispatch_unknown_tool_not_fatal_witness :
    (dispatch failTools llmCallsGhost [] "q" 2).dispatch_messages.take 3 =
      [Msg.user (questionHeader ++ "q"),
       Msg.assistant "calling" (some [tcGhost]),
       Msg.tool "The LLM tried to call a function that does not exist."
         tcGhost.tool_call_id (some tcGhost.function_name)] ∧
    2 ≤ (dispatch failTools llmCallsGhost [] "q" 2).contexts.length :=
  dispatch_unknown_tool_not_fatal failTools llmCallsGhost [] "q" 0 "calling"
    tcGhost [] rfl rfl

/-- C6 counterexample: an assistant response whose tool_calls is an empty
(non-None) sequence does not terminate dispatch gracefully — the code
subscripts tool_calls[0] and the IndexError escapes dispatch. -/
theorem empty_tool_calls_crash_cex :
    (dispatch [] llmEmptyToolCalls [] "q" 5).outcome =
      DispatchOutcome.crashed "list index out of range" ∧
    DispatchOutcome.crashed "list index out of range" ≠ DispatchOutcome.done :=
  ⟨rfl, by decide⟩

/-- C6 (amended): an assistant response whose tool_calls field is None (the
absent case only) terminates dispatch in the done state after exactly one
adapter call, with that message appended as the final answer and no tool
executed (the result is independent of the registry). -/
theorem dispatch_done_on_absent_tool_calls (tools : List (String × Tool))
    (llm : List Msg → Msg) (msgs : List Msg) (prompt : String) (fuel : Nat)
    (c : String)
    (h : llm (initialContext msgs prompt) = Msg.assistant c Option.none) :
    dispatch tools llm msgs prompt (fuel + 1) =
      ⟨[Msg.user (questionHeader ++ prompt), Msg.assistant c Option.none],
       [initialContext msgs prompt], DispatchOutcome.done⟩ := by
  have h' : llm ([Msg.system AGENT_PROMPT] ++ msgs ++ dispatchWorkingSet0 prompt) =
      Msg.assistant c Option.none := by
    simpa [initialContext] using h
  unfold dispatch
  rw [dispatchLoop_succ_none tools llm msgs fuel _ c h']
  simp [dispatchWorkingSet0, initialContext]

/-- Witness for the amended C6: a stub adapter answering directly. -/
theorem dispatch_done_on_absent_tool_calls_witness :
    dispatch [] llmFinalAnswer [] "q" 1 =
      ⟨[Msg.user (questionHeader ++ "q"),
        Msg.assistant "the final answer" Option.none],
       [initialContext [] "q"], DispatchOutcome.done⟩ :=
  dispatch_done_on_absent_tool_calls [] llmFinalAnswer [] "q" 0 "the final answer" rfl

/-- C8 counterexample: interact does not return the final content — on a
stub adapter it returns None while interact_functional returns the content
"the final answer" for the same inputs. -/
theorem interact_returns_none_cex :
    interact [] llmFinalAnswer [] "q" 1 =
      Except.ok ([Msg.user (questionHeader ++ "q"),
        Msg.assistant "the final answer" Option.none], Option.none) ∧
    interact_functional [] llmFinalAnswer [] "q" 1 =
      Except.ok ([Msg.user (questionHeader ++ "q"),
        Msg.assistant "the final answer" Option.none], some "the final answer") :=
  ⟨rfl, rfl⟩

/-- C8 (amended): interact runs one full dispatch and appends the working
set to the session in order, leaving the prior prefix unchanged, but
returns None (the content is only printed); the interact_functional variant
additionally returns the final message content. -/
theorem interact_merges_and_functional_returns (tools : List (String × Tool))
    (llm : List Msg → Msg) (session : List Msg) (prompt : String) (fuel : Nat)
    (hdone : (dispatch tools llm session prompt fuel).outcome = DispatchOutcome.done) :
    interact tools llm session prompt fuel =
      Except.ok (session ++ (dispatch tools llm session prompt fuel).dispatch_messages,
        Option.none) ∧
    interact_functional tools llm session prompt fuel =
      Except.ok (session ++ (dispatch tools llm session prompt fuel).dispatch_messages,
        lastContent (session ++
          (dispatch tools llm session prompt fuel).dispatch_messages)) := by
  constructor
  · simp only [interact, hdone]
  · simp only [interact_functional, hdone]

/-- Witness for the amended C8: a non-empty prior session is preserved as a
prefix and the returned values differ between the two entry points. -/
theorem interact_merges_and_functional_returns_witness :
    interact [] llmFinalAnswer [Msg.user "prior"] "q2" 1 =
      Except.ok ([Msg.user "prior"] ++
        (dispatch [] llmFinalAnswer [Msg.user "prior"] "q2" 1).dispatch_messages,
        Option.none) ∧
    interact_functional [] llmFinalAnswer [Msg.user "prior"] "q2" 1 =
      Except.ok ([Msg.user "prior"] ++
        (dispatch [] llmFinalAnswer [Msg.user "prior"] "q2" 1).dispatch_messages,
        lastContent ([Msg.user "prior"] ++
          (dispatch [] llmFinalAnswer [Msg.user "prior"] "q2" 1).dispatch_messages)) :=
  interact_merges_and_functional_returns [] llmFinalAnswer [Msg.user "prior"] "q2" 1 rfl

/-- The expected kind of the message at offset i when the scan starts with
flag evenPos: true demands a user/tool message, false an assistant one. -/
def slotKind (evenPos : Bool) (i : Nat) : Bool :=
  if i % 2 = 0 then evenPos else !evenPos

theorem slotKind_succ (b : Bool) (i : Nat) : slotKind b (i + 1) = slotKind (!b) i := by
  unfold slotKind
  rcases Nat.mod_two_eq_zero_or_one i with h | h
  · have h1 : (i + 1) % 2 = 1 := by omega
    simp [h, h1]
  · have h1 : (i + 1) % 2 = 0 := by omega
    simp [h, h1]

theorem checkAlternation_cons (m : Msg) (rest : List Msg) (b : Bool) :
    checkAlternation (m :: rest) b = Option.none ↔
      ((if b then isUserOrToolMessage m else isAssistantMessage m) = true ∧
        checkAlternation rest (!b) = Option.none) := by
  cases b
  · cases hm : isAssistantMessage m <;> simp [checkAlternation, hm]
  · cases hm : isUserOrToolMessage m <;> simp [checkAlternation, hm]

theorem checkAlternation_none_iff (tail : List Msg) :
    ∀ evenPos : Bool, checkAlternation tail evenPos = Option.none ↔
      ∀ i (h : i < tail.length),
        (if slotKind evenPos i then isUserOrToolMessage (tail.get ⟨i, h⟩)
         else isAssistantMessage (tail.get ⟨i, h⟩)) = true := by
  induction tail with
  | nil => intro b; simp [checkAlternation]
  | cons m rest ih =>
    intro b
    rw [checkAlternation_cons, ih (!b)]
    constructor
    · rintro ⟨h0, hrest⟩ i h
      cases i with
      | zero => simpa [slotKind] using h0
      | succ j =>
        have hj : j < rest.length := Nat.lt_of_succ_lt_succ h
        have hr := hrest j hj
        rw [slotKind_succ]
        simpa using hr
    · intro H
      constructor
      · have h0 := H 0 (Nat.succ_pos _)
        simpa [slotKind] using h0
      · intro j hj
        have hr := H (j + 1) (Nat.succ_lt_succ hj)
        rw [slotKind_succ] at hr
        simpa using hr

theorem alternationAt_iff (tail : List Msg) :
    alternationAt tail ↔ checkAlternation tail true = Option.none := by
  rw [checkAlternation_none_iff tail true]
  unfold alternationAt
  constructor
  · intro H i h
    rcases Nat.mod_two_eq_zero_or_one i with h2 | h2
    · simpa [slotKind, h2] using (H i h).1 h2
    · simpa [slotKind, h2] using (H i h).2 h2
  · intro H i h
    constructor
    · intro h2
      simpa [slotKind, h2] using H i h
    · intro h2
      simpa [slotKind, h2] using H i h

/-- C10: chat_func raises ValueError on an empty message list; after
skipping an optional leading SystemMessage it raises ValueError unless even
offsets are user/tool messages and odd offsets assistant messages (in
which case the result is independent of the backend, i.e. the backend is
never consulted); on a valid context a backend ResponseError is converted
to a degraded UserMessage instead of raising, and a backend success is
returned as an AssistantMessage. -/
theorem chat_func_alternation_contract
    (backend backend2 : List Msg → Except String ApiResponse) (m0 : Msg)
    (rest : List Msg) :
    chat_func backend [] = Except.error "Messages list cannot be empty" ∧
    (¬ alternationAt (if isSystemMessage m0 then rest else m0 :: rest) →
       isError (chat_func backend (m0 :: rest)) = true ∧
       chat_func backend (m0 :: rest) = chat_func backend2 (m0 :: rest)) ∧
    (alternationAt (if isSystemMessage m0 then rest else m0 :: rest) →
       (∀ e, backend (m0 :: rest) = Except.error e →
          chat_func backend (m0 :: rest) =
            Except.ok (Msg.user ("There was an API error. Please try again.. " ++ e))) ∧
       (∀ r, backend (m0 :: rest) = Except.ok r →
          chat_func backend (m0 :: rest) =
            Except.ok (Msg.assistant r.content r.tool_calls))) := by
  refine ⟨rfl, ?_, ?_⟩
  · intro halt
    cases hck : checkAlternation (if isSystemMessage m0 then rest else m0 :: rest) true with
    | none => exact absurd ((alternationAt_iff _).mpr hck) halt
    | some err =>
      constructor
      · simp [chat_func, hck, isError]
      · simp [chat_func, hck]
  · intro halt
    have hck : checkAlternation (if isSystemMessage m0 then rest else m0 :: rest) true =
        Option.none := (alternationAt_iff _).mp halt
    constructor
    · intro e he
      simp [chat_func, hck, he]
    · intro r hr
      simp [chat_func, hck, hr]

/-- Witness for C10: the empty list raises, a user-user context raises for
every backend, and on a valid singleton user context a ResponseError
becomes a degraded UserMessage while a success becomes an
AssistantMessage. -/
theorem chat_func_alternation_contract_witness :
    chat_func backendBoom [] = Except.error "Messages list cannot be empty" ∧
    (isError (chat_func backendBoom [Msg.user "hi", Msg.user "again"]) = true ∧
     chat_func backendBoom [Msg.user "hi", Msg.user "again"] =
       chat_func backendOkStub [Msg.user "hi", Msg.user "again"]) ∧
    chat_func backendBoom [Msg.user "hi"] =
      Except.ok (Msg.user ("There was an API error. Please try again.. " ++ "boom")) ∧
    chat_func backendOkStub [Msg.user "hi"] =
      Except.ok (Msg.assistant "all good" Option.none) := by
  refine ⟨(chat_func_alternation_contract backendBoom backendOkStub (Msg.user "hi") []).1,
    ?_, ?_, ?_⟩
  · exact (chat_func_alternation_contract backendBoom backendOkStub (Msg.user "hi")
      [Msg.user "again"]).2.1
      (fun hal => absurd ((alternationAt_iff _).mp hal) (by decide))
  · exact ((chat_func_alternation_contract backendBoom backendOkStub (Msg.user "hi")
      []).2.2 ((alternationAt_iff _).mpr (by decide))).1 "boom" rfl
  · exact ((chat_func_alternation_contract backendOkStub backendBoom (Msg.user "hi")
      []).2.2 ((alternationAt_iff _).mpr (by decide))).2 ⟨"all good", Option.none⟩ rfl

end GC
